import Mathlib

/-!
Shallow embedding of the diabetes-risk prediction backend (Node.js service).

The embedded code is the prediction-submission workflow of the controller
file (`parsePatientData`, `getRiskLevel`, the best-model reduce inside
`predict`, the `predict` handler itself) together with the service layer
(`callPythonService`, `createPatient`).

JavaScript numbers are modelled as `Rat` (all values arising here are
finite decimals); JavaScript's `undefined`/`null`/booleans/strings are
modelled by the `JsValue` type, with `toNumber` following JavaScript's
`ToNumber` coercion (`none` plays the role of `NaN`) restricted to plain
decimal literals (no exponent or hexadecimal forms, which never arise in
this workflow).
-/

namespace NodeServer

/-- A JavaScript value as it can appear in a parsed JSON request body or
be produced by the code under study. -/
inductive JsValue where
  | undefined
  | null
  | bool (b : Bool)
  | num (q : Rat)
  | str (s : String)
  deriving DecidableEq

/-- Digit run to a natural number (base 10). -/
def digitsToNat (cs : List Char) : Nat :=
  cs.foldl (fun a c => 10 * a + (c.toNat - 48)) 0

/-- Parse an unsigned decimal literal `digits [. digits]` that must span the
whole character list (JavaScript `Number(string)` semantics). -/
def parseDecimalAll (cs : List Char) : Option Rat :=
  let intPart := cs.takeWhile Char.isDigit
  let rest := cs.dropWhile Char.isDigit
  match rest with
  | [] => if intPart.isEmpty then none else some (digitsToNat intPart : Rat)
  | '.' :: frac =>
      if frac.all Char.isDigit && !(intPart.isEmpty && frac.isEmpty) then
        some (mkRat (digitsToNat intPart * 10 ^ frac.length + digitsToNat frac)
          (10 ^ frac.length))
      else none
  | _ => none

/-- JavaScript `Number(string)`: trimmed empty string is `0`; otherwise an
optionally signed decimal literal spanning the whole string; `none` = `NaN`. -/
def strToNumber (s : String) : Option Rat :=
  match s.trim.toList with
  | [] => some 0
  | '-' :: rest => (parseDecimalAll rest).map (fun q => -q)
  | '+' :: rest => parseDecimalAll rest
  | cs => parseDecimalAll cs

/-- JavaScript `ToNumber` coercion, as exercised by `isNaN(x)`:
`none` models `NaN`. -/
def toNumber : JsValue → Option Rat
  | .undefined => none
  | .null => some 0
  | .bool b => some (if b then 1 else 0)
  | .num q => some q
  | .str s => strToNumber s

/-- Parse an unsigned decimal prefix `digits [. digits]`
(JavaScript `parseFloat` longest-prefix semantics). -/
def parseDecimalLead (cs : List Char) : Option Rat :=
  let intPart := cs.takeWhile Char.isDigit
  let rest := cs.dropWhile Char.isDigit
  let fracPart := match rest with
    | '.' :: r => r.takeWhile Char.isDigit
    | _ => []
  if intPart.isEmpty && fracPart.isEmpty then none
  else some (mkRat (digitsToNat intPart * 10 ^ fracPart.length + digitsToNat fracPart)
    (10 ^ fracPart.length))

/-- JavaScript `parseFloat(v)`. On an actual number, `parseFloat(String(x))`
round-trips to `x`; on the strings `"undefined"`, `"null"`, `"true"`,
`"false"` it yields `NaN` (`none`). -/
def jsParseFloat : JsValue → Option Rat
  | .num q => some q
  | .str s =>
      match s.trim.toList with
      | '-' :: r => (parseDecimalLead r).map (fun q => -q)
      | '+' :: r => parseDecimalLead r
      | cs => parseDecimalLead cs
  | _ => none

/-- Truncation toward zero, as performed by `parseInt(String(x), 10)` on a
finite number `x`. -/
def ratTrunc (q : Rat) : Int :=
  if 0 ≤ q then q.floor else q.ceil

/-- Parse an unsigned digit prefix (JavaScript `parseInt(s, 10)`). -/
def parseIntLead (cs : List Char) : Option Int :=
  let ds := cs.takeWhile Char.isDigit
  if ds.isEmpty then none else some (digitsToNat ds : Int)

/-- JavaScript `parseInt(v, 10)`. -/
def jsParseInt : JsValue → Option Int
  | .num q => some (ratTrunc q)
  | .str s =>
      match s.trim.toList with
      | '-' :: r => (parseIntLead r).map (fun n => -n)
      | '+' :: r => parseIntLead r
      | cs => parseIntLead cs
  | _ => none

/-- JavaScript truthiness of a value. -/
def jsTruthy : JsValue → Bool
  | .undefined => false
  | .null => false
  | .bool b => b
  | .num q => q != 0
  | .str s => s != ""

/-- Truthiness of an optional string (models a JS string variable that may
be `undefined`). -/
def optStrTruthy : Option String → Bool
  | none => false
  | some s => s != ""

/-- String rendering used by template literals. Only the `.str` case is
reachable in the embedded workflow (the name is always a string there). -/
def jsDisplayString : JsValue → String
  | .undefined => "undefined"
  | .null => "null"
  | .bool b => if b then "true" else "false"
  | .num q => toString q
  | .str s => s

/-- The raw request body fields read by `parsePatientData` (`req.body`). -/
structure RawPatientData where
  age : JsValue := .undefined
  bmi : JsValue := .undefined
  insulin : JsValue := .undefined
  Pregnancies : JsValue := .undefined
  Glucose : JsValue := .undefined
  BloodPressure : JsValue := .undefined
  SkinThickness : JsValue := .undefined
  DiabetesPedigreeFunction : JsValue := .undefined
  name : JsValue := .undefined
  userId : Option String := none
  deriving DecidableEq

/-- The `fieldsToValidate` array of the source, paired with the value each
field holds in the body, in the source's order (`name` last). -/
def fieldsToValidate (p : RawPatientData) : List (String × JsValue) :=
  [("age", p.age), ("bmi", p.bmi), ("insulin", p.insulin),
   ("Pregnancies", p.Pregnancies), ("Glucose", p.Glucose),
   ("BloodPressure", p.BloodPressure), ("SkinThickness", p.SkinThickness),
   ("DiabetesPedigreeFunction", p.DiabetesPedigreeFunction),
   ("name", p.name)]

/-- The validation loop of `parsePatientData`: the first field (in order)
whose value is `undefined` or fails numeric coercion (`isNaN`), skipping
`name`. -/
def validateFields : List (String × JsValue) → Option String
  | [] => none
  | (f, v) :: rest =>
      if (v == JsValue.undefined || (toNumber v).isNone) && f != "name" then
        some f
      else validateFields rest

/-- First offending field of a raw body, in the source's field order. -/
def firstInvalidField (p : RawPatientData) : Option String :=
  validateFields (fieldsToValidate p)

/-- The coerced patient object built by `parsePatientData` and mutated by
`predict`. `prediction : Option Bool` models a JS field that can hold a
boolean or be `undefined`; `riskLevel`/`recommendation` are absent
(`none`) until `predict` assigns them. -/
structure PatientData where
  name : JsValue
  Age : Int
  BMI : Rat
  Insulin : Rat
  Pregnancies : Int
  Glucose : Rat
  BloodPressure : Rat
  SkinThickness : Rat
  DiabetesPedigreeFunction : Rat
  prediction : Option Bool
  precentage : Rat
  userId : Option String
  riskLevel : Option String := none
  recommendation : Option String := none
  deriving DecidableEq

/-- The record literal returned by `parsePatientData` after the validation
loop: `parseInt`/`parseFloat` coercions with the `|| 0` falsy fallback
(`Option.getD 0`: `NaN` becomes `0`, and `0 || 0` is `0` either way);
`name` defaults to `"Unknown"` when falsy. -/
def coerceFields (p : RawPatientData) : PatientData :=
  { name := if jsTruthy p.name then p.name else .str "Unknown"
    Age := (jsParseInt p.age).getD 0
    BMI := (jsParseFloat p.bmi).getD 0
    Insulin := (jsParseFloat p.insulin).getD 0
    Pregnancies := (jsParseInt p.Pregnancies).getD 0
    Glucose := (jsParseFloat p.Glucose).getD 0
    BloodPressure := (jsParseFloat p.BloodPressure).getD 0
    SkinThickness := (jsParseFloat p.SkinThickness).getD 0
    DiabetesPedigreeFunction := (jsParseFloat p.DiabetesPedigreeFunction).getD 0
    prediction := some false
    precentage := 0
    userId := p.userId }

/-- `parsePatientData`: validate all required fields (fail-fast, throwing
on the first offending field in field order), then coerce. -/
def parsePatientData (p : RawPatientData) : Except String PatientData :=
  match firstInvalidField p with
  | some f => .error ("Invalid or missing value for field: " ++ f)
  | none => .ok (coerceFields p)

/-- The risk assessment returned by `getRiskLevel`. -/
structure RiskAssessment where
  riskLevel : String
  recommendation : String
  deriving DecidableEq

/-- `getRiskLevel`: fixed threshold bands on the confidence percentage. -/
def getRiskLevel (precentage : Rat) : RiskAssessment :=
  if precentage < 40 then
    { riskLevel := "Low"
      recommendation := "Maintain a healthy lifestyle and regular checkups." }
  else if precentage < 70 then
    { riskLevel := "Moderate"
      recommendation := "Monitor health regularly and consider lifestyle improvements." }
  else if precentage < 90 then
    { riskLevel := "High"
      recommendation := "Consult a doctor and undergo further medical checkups." }
  else
    { riskLevel := "Critical"
      recommendation := "Immediate medical consultation is required." }

/-- One model's result in the gateway response (`{prediction, precentage}`). -/
structure ModelData where
  prediction : Bool
  precentage : Rat
  deriving DecidableEq

/-- The gateway's JSON response: model name to result, in the object's
insertion order (`Object.entries` order). -/
abbrev GatewayResponse := List (String × ModelData)

/-- The accumulator of the best-model reduce. The seed object in the source
is `{ precentage: 0 }`, so `model` and `prediction` start out absent
(`none` models `undefined`). -/
structure BestModel where
  model : Option String := none
  prediction : Option Bool := none
  precentage : Rat
  deriving DecidableEq

/-- The reduce seed `{ precentage: 0 }`. -/
def bestModelSeed : BestModel := { precentage := 0 }

/-- One step of the reduce: take the entry when its `precentage` strictly
exceeds the current best, otherwise keep the current best. -/
def bestModelStep (best : BestModel) (e : String × ModelData) : BestModel :=
  if e.2.precentage > best.precentage then
    { model := some e.1, prediction := some e.2.prediction,
      precentage := e.2.precentage }
  else best

/-- The best-model selection in `predict` (`Object.entries(...).reduce`). -/
def bestModel (resp : GatewayResponse) : BestModel :=
  resp.foldl bestModelStep bestModelSeed

/-- The `BestModel` corresponding to taking a given response entry
(`{ model, ...data }`). -/
def entryBest (e : String × ModelData) : BestModel :=
  { model := some e.1, prediction := some e.2.prediction,
    precentage := e.2.precentage }

/-- The first entry of the response whose `precentage` is maximal among all
entries (the spec's "first-seen maximal entry"). -/
def firstMax (resp : GatewayResponse) : Option (String × ModelData) :=
  resp.find? fun e => resp.all fun e2 => e2.2.precentage ≤ e.2.precentage

/-- Possible outcomes of the single outbound axios call in
`callPythonService`: the call throws (timeout, connection failure or
non-2xx status), or it returns `response.data` (which can itself be a
falsy body, modelled by `none`). -/
inductive GatewayOutcome where
  | failure
  | response (data : Option GatewayResponse)
  deriving DecidableEq

/-- `callPythonService`: wraps any axios error into the fixed message; a
successful call returns `response.data` unchanged. -/
def callPythonService (g : GatewayOutcome) : Except String (Option GatewayResponse) :=
  match g with
  | .failure => .error "Prediction service unavailable. Please try again later."
  | .response d => .ok d

/-- `createPatient` of the service layer: rejects a falsy `userId`,
otherwise the database insert either returns the stored record or throws
the fixed wrapped message. -/
def createPatient (dbOk : Bool) (pd : PatientData) : Except String PatientData :=
  if !(optStrTruthy pd.userId) then
    .error "Patient data and userId are required."
  else if dbOk then .ok pd
  else .error "Failed to create patient."

/-- The user profile columns selected by the `prisma.user.findUnique` call
in `predict`. -/
structure UserRecord where
  name : String
  email : String
  deriving DecidableEq

/-- The environment of one `predict` request: the verified identity on the
request (`req.user?.userId`), the result of the user lookup, the request
body, and the behaviour of each external collaborator (gateway, patient
insert, notification insert, email transporter). -/
structure PredictEnv where
  reqUserId : Option String
  findUser : Option UserRecord
  body : RawPatientData
  gateway : GatewayOutcome
  dbCreateOk : Bool
  notificationFail : Option String
  emailOk : Bool
  deriving DecidableEq

/-- The JSON body of the HTTP response of `predict`. -/
inductive ResponseBody where
  | error (msg : String)
  | success (prediction : Option Bool) (precentage : Rat)
      (riskLevel : Option String) (recommendation : Option String)
  deriving DecidableEq

/-- The observable outcome of one `predict` request: HTTP status and body,
plus the side effects performed (user lookups, gateway calls, persisted
patient record, created notification message, email sent). -/
structure PredictResult where
  status : Nat
  body : ResponseBody
  userLookups : Nat
  gatewayCalls : Nat
  persisted : Option PatientData
  notificationMessage : Option String
  emailSent : Bool
  deriving DecidableEq

/-- The `predict` request handler: identity check, user lookup, validation,
gateway call, best-model selection, risk classification, persistence,
notification insert, email send, success response; every thrown error is
caught by the single `catch` and becomes a 500 response carrying the
error's message. -/
def predict (env : PredictEnv) : PredictResult :=
  if !(optStrTruthy env.reqUserId) then
    { status := 401, body := .error "Authentication required",
      userLookups := 0, gatewayCalls := 0, persisted := none,
      notificationMessage := none, emailSent := false }
  else
    match env.findUser with
    | none =>
        { status := 404, body := .error "User not found",
          userLookups := 1, gatewayCalls := 0, persisted := none,
          notificationMessage := none, emailSent := false }
    | some user =>
      match parsePatientData env.body with
      | .error msg =>
          { status := 500, body := .error msg,
            userLookups := 1, gatewayCalls := 0, persisted := none,
            notificationMessage := none, emailSent := false }
      | .ok pd0 =>
        let pd1 : PatientData :=
          { pd0 with userId := env.reqUserId, name := .str user.name }
        match callPythonService env.gateway with
        | .error msg =>
            { status := 500, body := .error msg,
              userLookups := 1, gatewayCalls := 1, persisted := none,
              notificationMessage := none, emailSent := false }
        | .ok none =>
            { status := 500, body := .error "Prediction service unavailable",
              userLookups := 1, gatewayCalls := 1, persisted := none,
              notificationMessage := none, emailSent := false }
        | .ok (some resp) =>
          let best := bestModel resp
          let risk := getRiskLevel best.precentage
          let pd2 : PatientData :=
            { pd1 with
              prediction := best.prediction
              precentage := best.precentage
              riskLevel := some risk.riskLevel
              recommendation := some risk.recommendation }
          match createPatient env.dbCreateOk pd2 with
          | .error msg =>
              { status := 500, body := .error msg,
                userLookups := 1, gatewayCalls := 1, persisted := none,
                notificationMessage := none, emailSent := false }
          | .ok patient =>
            match env.notificationFail with
            | some msg =>
                { status := 500, body := .error msg,
                  userLookups := 1, gatewayCalls := 1,
                  persisted := some patient,
                  notificationMessage := none, emailSent := false }
            | none =>
              let message := "New prediction for " ++
                jsDisplayString patient.name ++ ": " ++ risk.riskLevel ++ " risk"
              if env.emailOk then
                { status := 200,
                  body := .success patient.prediction patient.precentage
                    patient.riskLevel patient.recommendation,
                  userLookups := 1, gatewayCalls := 1,
                  persisted := some patient,
                  notificationMessage := some message, emailSent := true }
              else
                { status := 500,
                  body := .error "Failed to send email notification",
                  userLookups := 1, gatewayCalls := 1,
                  persisted := some patient,
                  notificationMessage := some message, emailSent := false }

/-! ### Concrete inputs used by witnesses and counterexamples -/

/-- The end-to-end scenario body from the spec. -/
def c8Body : RawPatientData :=
  { age := .num 45, bmi := .num (mkRat 142 5), insulin := .num 130,
    Pregnancies := .num 2, Glucose := .num 150, BloodPressure := .num 80,
    SkinThickness := .num 30, DiabetesPedigreeFunction := .num (mkRat 1 2) }

/-- The end-to-end scenario gateway response from the spec. -/
def c8Resp : GatewayResponse := [("modelA", ⟨true, 82⟩), ("modelB", ⟨false, 61⟩)]

/-- An authenticated, fully healthy environment running the end-to-end
scenario. -/
def c8Env : PredictEnv :=
  { reqUserId := some "user-1", findUser := some ⟨"Alice", "alice@example.com"⟩,
    body := c8Body, gateway := .response (some c8Resp),
    dbCreateOk := true, notificationFail := none, emailOk := true }

/-- Same environment but the gateway returns an empty model mapping. -/
def emptyRespEnv : PredictEnv :=
  { c8Env with gateway := .response (some []) }

/-- A gateway response in which two models tie at confidence `0`. -/
def zeroTieResp : GatewayResponse := [("m1", ⟨true, 0⟩), ("m2", ⟨false, 0⟩)]

/-- The result of a request that halts with an error response carrying
`msg`: no record persisted, no notification, no email. -/
def haltResult (status : Nat) (msg : String) (lookups gateways : Nat) : PredictResult :=
  { status := status
    body := .error msg
    userLookups := lookups
    gatewayCalls := gateways
    persisted := none
    notificationMessage := none
    emailSent := false }

/-- The patient record persisted in the end-to-end scenario. -/
def c8Patient : PatientData :=
  { name := .str "Alice"
    Age := 45
    BMI := (mkRat 142 5)
    Insulin := 130
    Pregnancies := 2
    Glucose := 150
    BloodPressure := 80
    SkinThickness := 30
    DiabetesPedigreeFunction := (mkRat 1 2)
    prediction := some true
    precentage := 82
    userId := some "user-1"
    riskLevel := some "High"
    recommendation := some "Consult a doctor and undergo further medical checkups." }

/-- The full observable outcome of the end-to-end scenario. -/
def c8Result : PredictResult :=
  { status := 200
    body := .success (some true) 82 (some "High")
      (some "Consult a doctor and undergo further medical checkups.")
    userLookups := 1
    gatewayCalls := 1
    persisted := some c8Patient
    notificationMessage := some "New prediction for Alice: High risk"
    emailSent := true }

/-! ### Theorems -/

/-- C2 (confirmed): `getRiskLevel` classifies `[0,40)` as Low, `[40,70)` as
Moderate, `[70,90)` as High and `[90,100]` as Critical; the boundary
values `40`, `70` and `90` fall into the higher band. -/
theorem getRiskLevel_bands (p : Rat) :
    (0 ≤ p → p < 40 → (getRiskLevel p).riskLevel = "Low") ∧
    (40 ≤ p → p < 70 → (getRiskLevel p).riskLevel = "Moderate") ∧
    (70 ≤ p → p < 90 → (getRiskLevel p).riskLevel = "High") ∧
    (90 ≤ p → p ≤ 100 → (getRiskLevel p).riskLevel = "Critical") ∧
    (getRiskLevel 40).riskLevel = "Moderate" ∧
    (getRiskLevel 70).riskLevel = "High" ∧
    (getRiskLevel 90).riskLevel = "Critical" := by
  refine ⟨fun h1 h2 => ?_, fun h1 h2 => ?_, fun h1 h2 => ?_, fun h1 h2 => ?_,
    by decide, by decide, by decide⟩
  · simp only [getRiskLevel, if_pos h2]
  · simp only [getRiskLevel]
    rw [if_neg (by linarith), if_pos h2]
  · simp only [getRiskLevel]
    rw [if_neg (by linarith), if_neg (by linarith), if_pos h2]
  · simp only [getRiskLevel]
    rw [if_neg (by linarith), if_neg (by linarith), if_neg (by linarith)]

/-- Witness for C2 at the concrete inputs 39, 40, 89 and 95. -/
theorem getRiskLevel_bands_witness :
    (getRiskLevel 39).riskLevel = "Low" ∧
    (getRiskLevel 40).riskLevel = "Moderate" ∧
    (getRiskLevel 89).riskLevel = "High" ∧
    (getRiskLevel 95).riskLevel = "Critical" :=
  ⟨(getRiskLevel_bands 39).1 (by norm_num) (by norm_num),
   (getRiskLevel_bands 40).2.1 (by norm_num) (by norm_num),
   (getRiskLevel_bands 89).2.2.1 (by norm_num) (by norm_num),
   (getRiskLevel_bands 95).2.2.2.1 (by norm_num) (by norm_num)⟩

/-- C8 (confirmed): the spec's end-to-end scenario. On the given body and
gateway response, `predict` selects modelA at 82%, classifies the risk as
High, persists the record under the authenticated owner, and responds 200
with the stated payload. -/
theorem predict_end_to_end :
    bestModel c8Resp = entryBest ("modelA", ⟨true, 82⟩) ∧
    predict c8Env = c8Result := by decide

/-- C3 counterexample: on an empty gateway mapping the selected outcome is
the reduce seed seed object (only `precentage: 0`, no other field), whose `prediction` field is
absent (`undefined`), not the boolean `false` the claim states. -/
theorem bestModel_empty_counterexample :
    bestModel [] = bestModelSeed ∧ (bestModel []).prediction = none ∧
    ¬ (bestModel []).prediction = some false := by decide

/-- C3 (amended): on an empty gateway mapping the selected outcome has
`confidencePercentage = 0` and its `predictedPositive` is absent
(`undefined`, a falsy value, not the boolean `false`), and the resulting
risk level is Low — shown both on the selector alone and on a full
`predict` run whose response carries riskLevel Low and no prediction
value. -/
theorem predict_empty_mapping_floor :
    (bestModel []).precentage = 0 ∧ (bestModel []).prediction = none ∧
    (getRiskLevel (bestModel []).precentage).riskLevel = "Low" ∧
    (predict emptyRespEnv).status = 200 ∧
    (predict emptyRespEnv).body = .success none 0 (some "Low")
      (some "Maintain a healthy lifestyle and regular checkups.") := by decide

/-- C5 (confirmed): a request with no verified identity carrying a truthy
user id is rejected with 401 before the user lookup, the gateway call and
every persistence or messaging side effect. -/
theorem predict_unauthenticated (env : PredictEnv)
    (hauth : optStrTruthy env.reqUserId = false) :
    predict env = haltResult 401 "Authentication required" 0 0 := by
  simp [predict, hauth, haltResult]

/-- Witness for C5: a request with no identity at all. -/
theorem predict_unauthenticated_witness :
    predict { c8Env with reqUserId := none } =
      haltResult 401 "Authentication required" 0 0 :=
  predict_unauthenticated _ (by decide)

/-- Characterization of the best-model reduce from an arbitrary
accumulator: either no entry strictly beats the accumulator and the fold
returns it unchanged, or the fold returns the first entry that strictly
beats the accumulator and every earlier entry, with no later entry
strictly beating it. -/
theorem foldl_bestModelStep_spec (l : GatewayResponse) :
    ∀ b : BestModel,
      (List.foldl bestModelStep b l = b ∧
        ∀ e ∈ l, e.2.precentage ≤ b.precentage) ∨
      (∃ l1 e l2, l = l1 ++ e :: l2 ∧ b.precentage < e.2.precentage ∧
        (∀ x ∈ l1, x.2.precentage < e.2.precentage) ∧
        (∀ x ∈ l2, x.2.precentage ≤ e.2.precentage) ∧
        List.foldl bestModelStep b l = entryBest e) := by
  induction l with
  | nil => exact fun b => .inl ⟨rfl, by simp⟩
  | cons a l ih =>
    intro b
    by_cases h : b.precentage < a.2.precentage
    · have hstep : bestModelStep b a = entryBest a := by
        simp [bestModelStep, entryBest, h]
      rcases ih (entryBest a) with ⟨heq, hle⟩ | ⟨l1, e, l2, hsplit, hlt, hbefore, hafter, heq⟩
      · refine .inr ⟨[], a, l, by simp, h, by simp, ?_, ?_⟩
        · intro x hx
          simpa [entryBest] using hle x hx
        · simpa [hstep] using heq
      · refine .inr ⟨a :: l1, e, l2, by simp [hsplit], ?_, ?_, hafter, ?_⟩
        · exact h.trans (by simpa [entryBest] using hlt)
        · intro x hx
          rcases List.mem_cons.mp hx with rfl | hx
          · simpa [entryBest] using hlt
          · exact hbefore x hx
        · simpa [hstep] using heq
    · have hstep : bestModelStep b a = b := by
        simp only [bestModelStep, gt_iff_lt, if_neg h]
      rcases ih b with ⟨heq, hle⟩ | ⟨l1, e, l2, hsplit, hlt, hbefore, hafter, heq⟩
      · refine .inl ⟨by simpa [hstep] using heq, ?_⟩
        intro x hx
        rcases List.mem_cons.mp hx with rfl | hx
        · exact le_of_not_lt h
        · exact hle x hx
      · refine .inr ⟨a :: l1, e, l2, by simp [hsplit], hlt, ?_, hafter, by simpa [hstep] using heq⟩
        intro x hx
        rcases List.mem_cons.mp hx with rfl | hx
        · exact lt_of_le_of_lt (le_of_not_lt h) hlt
        · exact hbefore x hx

/-- `List.find?` returns the marked element when everything before it
fails the predicate and it satisfies it. -/
theorem find?_append_middle {α : Type} (p : α → Bool) (l1 l2 : List α) (e : α)
    (h1 : ∀ x ∈ l1, p x = false) (he : p e = true) :
    List.find? p (l1 ++ e :: l2) = some e := by
  induction l1 with
  | nil => simp [List.find?, he]
  | cons a t ih =>
    have ha := h1 a (by simp)
    simpa [List.find?, ha] using ih fun x hx => h1 x (by simp [hx])

/-- C1 (amended): for a nonempty response with confidences in `[0,100]`,
the selected outcome's `precentage` equals the maximum of the returned
confidences (it is attained and is an upper bound); and whenever that
maximum is strictly positive the selected outcome is exactly the
first-seen maximal entry of the mapping. (When the maximum is `0` the
reduce instead returns its seed seed object (only `precentage: 0`, no other field), which carries no
model name and no prediction value — see the counterexample.) -/
theorem bestModel_selects_max (resp : GatewayResponse) (hne : resp ≠ [])
    (hbound : ∀ e ∈ resp, 0 ≤ e.2.precentage ∧ e.2.precentage ≤ 100) :
    ((∃ e ∈ resp, e.2.precentage = (bestModel resp).precentage) ∧
     (∀ e ∈ resp, e.2.precentage ≤ (bestModel resp).precentage)) ∧
    (0 < (bestModel resp).precentage →
      ∃ e, firstMax resp = some e ∧ bestModel resp = entryBest e) := by
  rcases foldl_bestModelStep_spec resp bestModelSeed with
    ⟨heq, hle⟩ | ⟨l1, e, l2, hsplit, hlt, hbefore, hafter, heq⟩
  · have hbm : bestModel resp = bestModelSeed := heq
    have h0 : bestModelSeed.precentage = 0 := rfl
    refine ⟨⟨?_, ?_⟩, ?_⟩
    · rcases resp with _ | ⟨a, t⟩
      · exact absurd rfl hne
      · refine ⟨a, by simp, ?_⟩
        have h1 := hle a (by simp)
        have h2 := (hbound a (by simp)).1
        rw [hbm, h0]
        rw [h0] at h1
        exact le_antisymm h1 h2
    · intro x hx
      rw [hbm]
      exact hle x hx
    · intro hpos
      rw [hbm, h0] at hpos
      exact absurd hpos (lt_irrefl 0)
  · have hbm : bestModel resp = entryBest e := heq
    have hub : ∀ x ∈ resp, x.2.precentage ≤ e.2.precentage := by
      intro x hx
      rw [hsplit] at hx
      rcases List.mem_append.mp hx with hx1 | hx2
      · exact (hbefore x hx1).le
      · rcases List.mem_cons.mp hx2 with rfl | hx2
        · exact le_refl _
        · exact hafter x hx2
    have hmem : e ∈ resp := by
      rw [hsplit]; simp
    refine ⟨⟨⟨e, hmem, by rw [hbm]; rfl⟩, ?_⟩, ?_⟩
    · intro x hx
      rw [hbm]
      exact hub x hx
    · intro _
      refine ⟨e, ?_, hbm⟩
      unfold firstMax
      rw [hsplit]
      apply find?_append_middle
      · intro x hx
        rw [Bool.eq_false_iff]
        intro hall
        rw [List.all_eq_true] at hall
        have hx2 := hall e (by simp)
        rw [decide_eq_true_eq] at hx2
        exact absurd hx2 (not_le.mpr (hbefore x hx))
      · rw [List.all_eq_true]
        intro x hx
        rw [decide_eq_true_eq]
        exact hub x (hsplit ▸ hx)

/-- Witness for C1 at the end-to-end scenario response. -/
theorem bestModel_selects_max_witness :
    ((∃ e ∈ c8Resp, e.2.precentage = (bestModel c8Resp).precentage) ∧
     (∀ e ∈ c8Resp, e.2.precentage ≤ (bestModel c8Resp).precentage)) ∧
    (0 < (bestModel c8Resp).precentage →
      ∃ e, firstMax c8Resp = some e ∧ bestModel c8Resp = entryBest e) :=
  bestModel_selects_max c8Resp (by decide) (by decide)

/-- C1 counterexample: two models tie at the maximal confidence `0`. The
first-seen maximal entry is `m1`, but the reduce keeps its seed
seed object (only `precentage: 0`, no other field) (strict `>` never fires), so the selected outcome is
not the first-seen maximal entry — it is no entry of the mapping at all. -/
theorem bestModel_tie_counterexample :
    (∀ e ∈ zeroTieResp, 0 ≤ e.2.precentage ∧ e.2.precentage ≤ 100) ∧
    firstMax zeroTieResp = some ("m1", ⟨true, 0⟩) ∧
    (bestModel zeroTieResp).precentage = 0 ∧
    bestModel zeroTieResp ≠ entryBest ("m1", ⟨true, 0⟩) ∧
    (∀ e ∈ zeroTieResp, bestModel zeroTieResp ≠ entryBest e) := by decide

/-- C4 (confirmed): when some required field of the body is missing
(`undefined`) or not numerically coercible (`isNaN`), `predict` on an
authenticated caller responds 500 with a validation message naming the
first offending field in field order (`firstInvalidField` is the
fail-fast validation loop), performs no gateway call, and persists
nothing. -/
theorem predict_validation_failfast (env : PredictEnv) (user : UserRecord) (f : String)
    (hauth : optStrTruthy env.reqUserId = true)
    (huser : env.findUser = some user)
    (hf : firstInvalidField env.body = some f) :
    predict env = haltResult 500 ("Invalid or missing value for field: " ++ f) 1 0 := by
  simp [predict, parsePatientData, hauth, huser, hf, haltResult]

/-- Witness for C4: the end-to-end body with `age` absent. -/
theorem predict_validation_failfast_witness :
    predict { c8Env with body := { c8Body with age := .undefined } } =
      haltResult 500 ("Invalid or missing value for field: " ++ "age") 1 0 :=
  predict_validation_failfast _ ⟨"Alice", "alice@example.com"⟩ "age"
    (by decide) (by decide) (by decide)

/-- C6 (confirmed): when the single gateway call throws (timeout,
connection failure or non-2xx response), `predict` responds 500 with the
prediction-unavailable message after exactly one gateway call (no retry),
and persists no record, creates no notification and sends no email. -/
theorem predict_gateway_failure (env : PredictEnv) (user : UserRecord)
    (hauth : optStrTruthy env.reqUserId = true)
    (huser : env.findUser = some user)
    (hvalid : firstInvalidField env.body = none)
    (hgw : env.gateway = .failure) :
    predict env =
      haltResult 500 "Prediction service unavailable. Please try again later." 1 1 := by
  simp [predict, parsePatientData, callPythonService, hauth, huser, hvalid, hgw, haltResult]

/-- Witness for C6: the end-to-end environment with a failing gateway. -/
theorem predict_gateway_failure_witness :
    predict { c8Env with gateway := .failure } =
      haltResult 500 "Prediction service unavailable. Please try again later." 1 1 :=
  predict_gateway_failure _ ⟨"Alice", "alice@example.com"⟩
    (by decide) (by decide) (by decide) (by decide)

/-- The validation loop never fails on `name` (the loop condition carries
`field !== "name"`), so the body's `name` value cannot change the first
offending field. -/
theorem firstInvalidField_name_irrelevant (p : RawPatientData) (v : JsValue) :
    firstInvalidField { p with name := v } = firstInvalidField p := by
  simp [firstInvalidField, fieldsToValidate, validateFields]

/-- A successful `createPatient` returns exactly the record it was given. -/
theorem createPatient_ok_eq {dbOk : Bool} {pd patient : PatientData}
    (h : createPatient dbOk pd = .ok patient) : patient = pd := by
  unfold createPatient at h
  split at h
  · exact absurd h (by simp)
  · split at h
    · injection h with h
      exact h.symm
    · exact absurd h (by simp)

/-- C7 (confirmed): whenever `predict` persists a patient record, that
record's `name` is the authenticated owner's profile name and its
`userId` is the resolved caller id; moreover the caller-supplied `name`
in the body never influences the outcome of `predict` at all (replacing
it by an arbitrary value leaves the entire result unchanged). -/
theorem predict_name_owner (env : PredictEnv) (uid : String) (user : UserRecord) (v : JsValue)
    (hauth : env.reqUserId = some uid)
    (huser : env.findUser = some user) :
    (∀ pd, (predict env).persisted = some pd →
        pd.name = JsValue.str user.name ∧ pd.userId = some uid) ∧
    predict { env with body := { env.body with name := v } } = predict env := by
  constructor
  · intro pd hpd
    unfold predict at hpd
    split at hpd
    · simp at hpd
    · split at hpd
      · rename_i heq2
        rw [huser] at heq2
        simp at heq2
      · rename_i u2 heq2
        rw [huser] at heq2
        injection heq2 with h2
        subst h2
        split at hpd
        · simp at hpd
        · split at hpd
          · simp at hpd
          · simp at hpd
          · try dsimp only at hpd
            split at hpd
            · simp at hpd
            · rename_i pat hcreate
              have hpat := createPatient_ok_eq hcreate
              split at hpd
              · simp only [Option.some.injEq] at hpd
                subst hpd
                rw [hpat]
                exact ⟨rfl, hauth⟩
              · split at hpd <;>
                · simp only [Option.some.injEq] at hpd
                  subst hpd
                  rw [hpat]
                  exact ⟨rfl, hauth⟩
  · unfold predict parsePatientData
    dsimp only
    rw [firstInvalidField_name_irrelevant]
    cases hpf : firstInvalidField env.body <;> rfl

/-- Witness for C7: the end-to-end scenario with a spoofed caller-supplied
name. -/
theorem predict_name_owner_witness :
    (∀ pd, (predict c8Env).persisted = some pd →
        pd.name = JsValue.str "Alice" ∧ pd.userId = some "user-1") ∧
    predict { c8Env with body := { c8Body with name := JsValue.str "Mallory" } } =
      predict c8Env :=
  predict_name_owner c8Env "user-1" ⟨"Alice", "alice@example.com"⟩
    (JsValue.str "Mallory") rfl rfl

/-- Some step after the user lookup throws: validation fails, the gateway
call throws or returns a falsy body, the patient insert fails, the
notification insert throws, or the email send fails. -/
def stepFailed (env : PredictEnv) : Prop :=
  firstInvalidField env.body ≠ none ∨ env.gateway = .failure ∨
  env.gateway = .response none ∨ env.dbCreateOk = false ∨
  env.notificationFail ≠ none ∨ env.emailOk = false

/-- C10 (confirmed): only the missing-identity check answers 401 and only
the failed user lookup answers 404; once both pass, every execution of
`predict` answers either 200 or 500, any throwing step (validation,
gateway, falsy gateway body, persistence, notification, email) produces
exactly status 500 with an `error` message body, and with no failing step
the status is 200 — so the spec's distinct error categories are not
distinguishable by status code. -/
theorem predict_error_collapse (env : PredictEnv) :
    (optStrTruthy env.reqUserId = false →
      predict env = haltResult 401 "Authentication required" 0 0) ∧
    (optStrTruthy env.reqUserId = true → env.findUser = none →
      predict env = haltResult 404 "User not found" 1 0) ∧
    (∀ user, optStrTruthy env.reqUserId = true → env.findUser = some user →
      ((predict env).status = 200 ∨
        ((predict env).status = 500 ∧ ∃ m, (predict env).body = ResponseBody.error m)) ∧
      (stepFailed env → (predict env).status = 500) ∧
      (¬ stepFailed env → (predict env).status = 200)) := by
  refine ⟨fun h => ?_, fun h hn => ?_, fun user h huser => ?_⟩
  · simp [predict, h, haltResult]
  · simp [predict, h, hn, haltResult]
  · rcases hpf : firstInvalidField env.body with _ | f <;>
    rcases hgw : env.gateway with _ | (_ | resp) <;>
    cases hdb : env.dbCreateOk <;>
    rcases hnf : env.notificationFail with _ | m <;>
    cases hem : env.emailOk <;>
    simp [predict, parsePatientData, callPythonService, createPatient, stepFailed,
      h, huser, hpf, hgw, hdb, hnf, hem]

/-- Witness for C10: the end-to-end environment with a failing email
transporter — a 500 even though the record was already persisted. -/
theorem predict_error_collapse_witness :
    predict { c8Env with emailOk := false } =
      haltResult 401 "Authentication required" 0 0 ∨
    ((predict { c8Env with emailOk := false }).status = 500 ∧
      stepFailed { c8Env with emailOk := false }) := by
  have h := (predict_error_collapse { c8Env with emailOk := false }).2.2
    ⟨"Alice", "alice@example.com"⟩ (by decide) (by decide)
  exact Or.inr ⟨h.2.1 (Or.inr (Or.inr (Or.inr (Or.inr (Or.inr rfl))))),
    Or.inr (Or.inr (Or.inr (Or.inr (Or.inr rfl))))⟩

/-- A negative but numeric `age` value in an otherwise valid body. -/
def negAgeBody : RawPatientData := { c8Body with age := .num (-5) }

/-- C9 counterexample: the validator accepts a negative `age` (it is
numeric, so `isNaN` passes) and the produced submission's `Age` is the
negative integer `-5` — the claimed non-negativity does not hold. -/
theorem parse_negative_age_counterexample :
    (parsePatientData negAgeBody).toOption.map PatientData.Age = some (-5) ∧
    ¬ (0 ≤ (-5 : Int)) := by decide

/-- The value is a number and non-negative. -/
def NonnegNum (v : JsValue) : Prop := ∃ q : Rat, v = .num q ∧ 0 ≤ q

/-- Truncation toward zero preserves non-negativity. -/
theorem ratTrunc_nonneg {q : Rat} (h : 0 ≤ q) : 0 ≤ ratTrunc q := by
  simp only [ratTrunc, if_pos h]
  exact Rat.le_floor.mpr (by exact_mod_cast h)

/-- C9 (amended): every raw input accepted by the validator produces a
submission whose fields carry their declared numeric types (age and
pregnancies integers via truncation, the rest rationals — all finite by
construction in this model), but the validator does not enforce sign;
non-negativity of the produced fields holds when the supplied raw values
are themselves non-negative numbers. -/
theorem parse_typed_nonneg (p : RawPatientData)
    (hage : NonnegNum p.age) (hbmi : NonnegNum p.bmi)
    (hins : NonnegNum p.insulin) (hpreg : NonnegNum p.Pregnancies)
    (hglu : NonnegNum p.Glucose) (hbp : NonnegNum p.BloodPressure)
    (hskin : NonnegNum p.SkinThickness)
    (hdpf : NonnegNum p.DiabetesPedigreeFunction) :
    parsePatientData p = .ok (coerceFields p) ∧
    0 ≤ (coerceFields p).Age ∧ 0 ≤ (coerceFields p).BMI ∧
    0 ≤ (coerceFields p).Insulin ∧ 0 ≤ (coerceFields p).Pregnancies ∧
    0 ≤ (coerceFields p).Glucose ∧ 0 ≤ (coerceFields p).BloodPressure ∧
    0 ≤ (coerceFields p).SkinThickness ∧
    0 ≤ (coerceFields p).DiabetesPedigreeFunction := by
  obtain ⟨qa, ha, ha0⟩ := hage
  obtain ⟨qb, hb, hb0⟩ := hbmi
  obtain ⟨qi, hi, hi0⟩ := hins
  obtain ⟨qp, hp, hp0⟩ := hpreg
  obtain ⟨qg, hg, hg0⟩ := hglu
  obtain ⟨qbp, hbp2, hbp0⟩ := hbp
  obtain ⟨qs, hs, hs0⟩ := hskin
  obtain ⟨qd, hd, hd0⟩ := hdpf
  refine ⟨?_, ?_, ?_, ?_, ?_, ?_, ?_, ?_, ?_⟩
  · simp [parsePatientData, firstInvalidField, fieldsToValidate, validateFields,
      toNumber, ha, hb, hi, hp, hg, hbp2, hs, hd]
  · simpa [coerceFields, jsParseInt, ha] using ratTrunc_nonneg ha0
  · simpa [coerceFields, jsParseFloat, hb] using hb0
  · simpa [coerceFields, jsParseFloat, hi] using hi0
  · simpa [coerceFields, jsParseInt, hp] using ratTrunc_nonneg hp0
  · simpa [coerceFields, jsParseFloat, hg] using hg0
  · simpa [coerceFields, jsParseFloat, hbp2] using hbp0
  · simpa [coerceFields, jsParseFloat, hs] using hs0
  · simpa [coerceFields, jsParseFloat, hd] using hd0

/-- Witness for C9 at the end-to-end scenario body. -/
theorem parse_typed_nonneg_witness :
    parsePatientData c8Body = .ok (coerceFields c8Body) ∧
    0 ≤ (coerceFields c8Body).Age ∧ 0 ≤ (coerceFields c8Body).BMI ∧
    0 ≤ (coerceFields c8Body).Insulin ∧ 0 ≤ (coerceFields c8Body).Pregnancies ∧
    0 ≤ (coerceFields c8Body).Glucose ∧ 0 ≤ (coerceFields c8Body).BloodPressure ∧
    0 ≤ (coerceFields c8Body).SkinThickness ∧
    0 ≤ (coerceFields c8Body).DiabetesPedigreeFunction :=
  parse_typed_nonneg c8Body ⟨45, rfl, by decide⟩ ⟨mkRat 142 5, rfl, by decide⟩
    ⟨130, rfl, by decide⟩ ⟨2, rfl, by decide⟩ ⟨150, rfl, by decide⟩
    ⟨80, rfl, by decide⟩ ⟨30, rfl, by decide⟩ ⟨mkRat 1 2, rfl, by decide⟩

end NodeServer
